import Mathlib

/-
Verification development for the msk_flink_pinot repository, core `msk_admin`
package.  The Python source is shallowly embedded: every remote call made by
the code (Kafka AdminClient, AWS Glue) is a parameter of the embedded
function, holding the outcome that call would produce; stateless pure
helpers (topic_profiles.py) are translated directly.  Python exceptions are
modelled by the inductive `PyExc`; a function that can raise returns
`Except PyExc _`.  The tenacity `@retry` decorators used throughout
kafka_admin.py and schema_registry.py are modelled by `tenacityRun`, which
follows tenacity semantics with the default `reraise=False`: on exhaustion
of `stop_after_attempt(n)` the loop raises a `RetryError` that wraps the
last attempt, it does not re-raise the underlying error.
-/

namespace MskAdmin

/-- PyExc models the Python exception classes that appear in msk_admin:
ValueError and TypeError from the standard library, KafkaException from
confluent_kafka, KafkaAdminError from kafka_admin.py, ClientError and
BotoCoreError from botocore, SchemaRegistryError from schema_registry.py,
tenacity.RetryError (which wraps the exception of the last failed attempt),
and a catch-all for any other exception. -/
inductive PyExc where
  | valueError (msg : String)
  | typeError (msg : String)
  | kafkaException (msg : String)
  | kafkaAdminError (msg : String)
  | clientError (code msg : String)
  | botoCoreError (msg : String)
  | schemaRegistryError (msg : String)
  | retryError (last : PyExc)
  | otherError (msg : String)
deriving DecidableEq, Repr

/-- Message produced by Python str(e) for each modelled exception.  For the
single-argument exception classes this is the message they were built with;
for RetryError we use a fixed token, since its Python rendering
(RetryError with the repr of a Future inside) never contains the text of
the underlying error. -/
def PyExc.toStr : PyExc → String
  | .valueError m => m
  | .typeError m => m
  | .kafkaException m => m
  | .kafkaAdminError m => m
  | .clientError _ m => m
  | .botoCoreError m => m
  | .schemaRegistryError m => m
  | .retryError _ => "RetryError"
  | .otherError m => m

/-- Retry predicate of the decorators in kafka_admin.py:
retry_if_exception_type((KafkaException, KafkaAdminError)). -/
def isRetryableKafka : PyExc → Bool
  | .kafkaException _ => true
  | .kafkaAdminError _ => true
  | _ => false

/-- Retry predicate of the decorators in schema_registry.py:
retry_if_exception_type((ClientError, BotoCoreError, SchemaRegistryError)). -/
def isRetryableGlue : PyExc → Bool
  | .clientError _ _ => true
  | .botoCoreError _ => true
  | .schemaRegistryError _ => true
  | _ => false

/-- Loop of the tenacity retry decorator.  `attempt` is the 1-based attempt
counter, `fuel` bounds the recursion (callers pass `maxAttempts`, which
dominates the number of iterations because the loop stops as soon as
`maxAttempts ≤ attempt`).  Semantics of tenacity with
stop_after_attempt(maxAttempts) and the default reraise=False: a successful
attempt returns its value; a non-retryable exception is re-raised as is; a
retryable exception is retried until the stop condition holds, after which
a RetryError wrapping the last exception is raised.  The second component
of the result is the number of attempts that were executed. -/
def tenacityGo (isRetryable : PyExc → Bool) (maxAttempts : Nat)
    (f : Nat → Except PyExc α) : Nat → Nat → Except PyExc α × Nat
  | attempt, fuel =>
    match f attempt with
    | .ok a => (.ok a, attempt)
    | .error e =>
      if isRetryable e then
        if maxAttempts ≤ attempt then (.error (.retryError e), attempt)
        else
          match fuel with
          | 0 => (.error (.retryError e), attempt)
          | fuel' + 1 => tenacityGo isRetryable maxAttempts f (attempt + 1) fuel'
      else (.error e, attempt)

/-- Full retry-wrapped call: run attempts 1, 2, ... up to `maxAttempts`.
Models the @retry decorator applied to a function whose attempt number i
produces outcome `f i`. -/
def tenacityRun (isRetryable : PyExc → Bool) (maxAttempts : Nat)
    (f : Nat → Except PyExc α) : Except PyExc α × Nat :=
  tenacityGo isRetryable maxAttempts f 1 maxAttempts

/-- ConfigValue models the Python values appearing in topic configuration
dictionaries: int, bool, str, and the one float literal (0.5) which is
represented exactly as the ratio num/den. -/
inductive ConfigValue where
  | int (n : Int)
  | bool (b : Bool)
  | str (s : String)
  | ratio (num den : Int)
deriving DecidableEq, Repr

/-- Config models a Python dict of configuration key to value, as an
association list whose key order is the dict insertion order. -/
abbrev Config := List (String × ConfigValue)

/-- Lookup of a key in a configuration dict. -/
def lookupConfig (d : Config) (k : String) : Option ConfigValue :=
  (d.find? (fun kv => kv.1 = k)).map (·.2)

/-- Key list of a configuration dict. -/
def configKeys (d : Config) : List String :=
  d.map (·.1)

/-- Configuration of the general_throughput profile of topic_profiles.py,
translated entry for entry in source order. -/
def generalThroughputConfig : Config :=
  [("min.insync.replicas", .int 2),
   ("unclean.leader.election.enable", .bool false),
   ("compression.type", .str "snappy"),
   ("retention.ms", .int 259200000),
   ("segment.ms", .int 3600000),
   ("segment.bytes", .int 1073741824),
   ("message.timestamp.type", .str "CreateTime"),
   ("max.message.bytes", .int 1048576),
   ("delete.retention.ms", .int 86400000),
   ("file.delete.delay.ms", .int 60000),
   ("replica.lag.time.max.ms", .int 30000)]

/-- TOPIC_PROFILES from topic_profiles.py, translated entry for entry. -/
def TOPIC_PROFILES : List (String × Config) :=
  [("general_throughput", generalThroughputConfig),
   ("low_latency",
    [("min.insync.replicas", .int 1),
     ("unclean.leader.election.enable", .bool false),
     ("compression.type", .str "lz4"),
     ("segment.ms", .int 1800000),
     ("segment.bytes", .int 536870912),
     ("retention.ms", .int 86400000),
     ("message.timestamp.type", .str "CreateTime"),
     ("max.message.bytes", .int 1048576),
     ("delete.retention.ms", .int 3600000),
     ("file.delete.delay.ms", .int 30000),
     ("replica.lag.time.max.ms", .int 10000)]),
   ("compaction_log",
    [("cleanup.policy", .str "compact"),
     ("min.cleanable.dirty.ratio", .ratio 1 2),
     ("min.compaction.lag.ms", .int 0),
     ("max.compaction.lag.ms", .int 604800000),
     ("min.insync.replicas", .int 2),
     ("unclean.leader.election.enable", .bool false),
     ("compression.type", .str "snappy"),
     ("segment.ms", .int 3600000),
     ("segment.bytes", .int 1073741824),
     ("delete.retention.ms", .int 86400000),
     ("message.timestamp.type", .str "CreateTime"),
     ("max.message.bytes", .int 1048576),
     ("segment.index.bytes", .int 10485760),
     ("file.delete.delay.ms", .int 60000)]),
   ("long_retention",
    [("retention.ms", .int 1209600000),
     ("retention.bytes", .int (-1)),
     ("min.insync.replicas", .int 2),
     ("unclean.leader.election.enable", .bool false),
     ("compression.type", .str "zstd"),
     ("segment.ms", .int 86400000),
     ("segment.bytes", .int 2147483648),
     ("message.timestamp.type", .str "CreateTime"),
     ("max.message.bytes", .int 1048576),
     ("delete.retention.ms", .int 86400000),
     ("file.delete.delay.ms", .int 300000),
     ("segment.index.bytes", .int 52428800),
     ("replica.lag.time.max.ms", .int 60000)])]

/-- get_profile from topic_profiles.py: unknown profile names raise
ValueError, known names return (a copy of) the profile dict. -/
def get_profile (profileName : String) : Except PyExc Config :=
  match TOPIC_PROFILES.find? (fun p => p.1 = profileName) with
  | some p => .ok p.2
  | none => .error (.valueError ("Profile " ++ profileName ++ " not found"))

/-- Single-key write into a dict, Python semantics: an existing key keeps
its position and gets the new value, a new key is appended at the end. -/
def dictSet (d : Config) (k : String) (v : ConfigValue) : Config :=
  if d.any (fun kv => kv.1 = k) then
    d.map (fun kv => if kv.1 = k then (k, v) else kv)
  else
    d ++ [(k, v)]

/-- merge_configs from topic_profiles.py: merged = profile_config.copy();
merged.update(overrides).  dict.update writes the override entries one by
one in their own order. -/
def merge_configs (profileConfig overrides : Config) : Config :=
  overrides.foldl (fun acc kv => dictSet acc kv.1 kv.2) profileConfig

/-- ConfigValidationError is the error raised by validate_config:
the two ValueError branches of the source, plus the TypeError Python would
raise when the configured min.insync.replicas value does not support
comparison with an int. -/
inductive ConfigValidationError where
  | minIsrNotLessThanRF (minIsr : ConfigValue) (rf : Int)
  | invalidCompressionType (c : ConfigValue)
  | cmpTypeError (v : ConfigValue)
deriving DecidableEq, Repr

/-- Python comparison `v >= r` between a configuration value and an int:
defined for int (numeric), bool (False=0, True=1) and the float ratio
num/den with den > 0; a str raises TypeError, modelled as none. -/
def pyGeInt : ConfigValue → Int → Option Bool
  | .int n, r => some (r ≤ n)
  | .bool b, r => some (r ≤ if b then (1 : Int) else 0)
  | .ratio num den, r => some (den * r ≤ num)
  | .str _, _ => none

/-- Membership test of the source `compression not in valid_compression`:
only a str can be a member of the list of valid compression names; any
non-str value is not a member (Python membership between different types
is simply False, it does not raise). -/
def isValidCompression : ConfigValue → Bool
  | .str s => ["none", "gzip", "snappy", "lz4", "zstd"].contains s
  | _ => false

/-- validate_config from topic_profiles.py.  Reads min.insync.replicas with
default 1, fails when it is not strictly below the replication factor;
then reads compression.type with default none and fails when it is outside
the valid set.  The unclean.leader.election.enable branch only emits a
non-fatal warning and is therefore not part of the error behaviour. -/
def validate_config (config : Config) (replicationFactor : Int) :
    Except ConfigValidationError Unit :=
  let minIsr := (lookupConfig config "min.insync.replicas").getD (.int 1)
  match pyGeInt minIsr replicationFactor with
  | none => .error (.cmpTypeError minIsr)
  | some ge =>
    if ge then .error (.minIsrNotLessThanRF minIsr replicationFactor)
    else
      let compression := (lookupConfig config "compression.type").getD (.str "none")
      if isValidCompression compression then .ok ()
      else .error (.invalidCompressionType compression)

/-- Rendering of a ConfigValidationError as the PyExc the source raises.
The two ValueError messages follow the source f-strings, the TypeError is
the one Python raises for an unsupported comparison. -/
def ConfigValidationError.toPyExc : ConfigValidationError → PyExc
  | .minIsrNotLessThanRF _ _ =>
    .valueError "min.insync.replicas must be less than replication factor"
  | .invalidCompressionType _ =>
    .valueError "Invalid compression.type. Valid options: none, gzip, snappy, lz4, zstd"
  | .cmpTypeError _ =>
    .typeError "unsupported operand types for comparison"

/-- Python truthiness defaulting in create_topic, lines 80 and 81:
`partitions = partitions or self.settings.default_partitions`.  None and 0
are falsy and are replaced by the default; any nonzero int, including a
negative one, is kept. -/
def resolveArg (supplied : Option Int) (defaultValue : Int) : Int :=
  match supplied with
  | none => defaultValue
  | some v => if v = 0 then defaultValue else v

/-- Substring test used by the except clause of create_topic, line 141:
`"already exists" in str(e).lower()`. -/
def containsAlreadyExists (s : String) : Bool :=
  (s.splitOn "already exists").length ≠ 1

/-- CreateOutcome records which return path of create_topic executed (the
Python function returns None on all of them): `created` is the successful
submission path, `existedNoop` is the early return at line 111 after the
existence check found the name, `existedCaught` is the return at line 143
inside the textual already-exists fallback of the except clause. -/
inductive CreateOutcome where
  | created
  | existedNoop
  | existedCaught
deriving DecidableEq, Repr

/-- Attempt body of create_topic from kafka_admin.py (everything inside one
attempt of the @retry decorator).  `listOutcome` is the outcome of the
inner call self.list_topics() (itself retry wrapped: its value is the
sorted, filtered user topic list), `createOutcome` the outcome of the
admin_client.create_topics future for this topic. -/
def createTopicAttempt (defaultPartitions defaultRF : Int) (name : String)
    (partitions replicationFactor : Option Int) (config : Option Config)
    (profile : String) (listOutcome : Except PyExc (List String))
    (createOutcome : Except PyExc Unit) : Except PyExc CreateOutcome :=
  let p := resolveArg partitions defaultPartitions
  let r := resolveArg replicationFactor defaultRF
  if p < 1 then .error (.kafkaAdminError s!"Partitions must be >= 1, got {p}")
  else if r < 1 then
    .error (.kafkaAdminError s!"Replication factor must be >= 1, got {r}")
  else
    match get_profile profile with
    | .error e => .error e
    | .ok profileConfig =>
      let finalConfig := merge_configs profileConfig (config.getD [])
      match validate_config finalConfig r with
      | .error ve => .error ve.toPyExc
      | .ok _ =>
        let tryBody : Except PyExc CreateOutcome :=
          match listOutcome with
          | .error e => .error e
          | .ok existingTopics =>
            if name ∈ existingTopics then .ok .existedNoop
            else
              match createOutcome with
              | .ok _ => .ok .created
              | .error e =>
                .error (.kafkaAdminError
                  ("Failed to create topic " ++ name ++ ": " ++ e.toStr))
        match tryBody with
        | .ok res => .ok res
        | .error e =>
          if containsAlreadyExists e.toStr.toLower then .ok .existedCaught
          else
            .error (.kafkaAdminError
              ("Failed to create topic " ++ name ++ ": " ++ e.toStr))

/-- Retry-wrapped create_topic: @retry with stop_after_attempt(3) and
retry_if_exception_type((KafkaException, KafkaAdminError)).  The per
attempt environment (list and create outcomes) is indexed by the attempt
number. -/
def create_topic_call (defaultPartitions defaultRF : Int) (name : String)
    (partitions replicationFactor : Option Int) (config : Option Config)
    (profile : String) (listOutcome : Nat → Except PyExc (List String))
    (createOutcome : Nat → Except PyExc Unit) :
    Except PyExc CreateOutcome × Nat :=
  tenacityRun isRetryableKafka 3 (fun i =>
    createTopicAttempt defaultPartitions defaultRF name partitions
      replicationFactor config profile (listOutcome i) (createOutcome i))

/-- Stable insertion of an element into a sorted list, helper for the
model of the Python built-in sorted. -/
def insertByLe (le : α → α → Bool) (a : α) : List α → List α
  | [] => [a]
  | b :: bs => if le a b then a :: b :: bs else b :: insertByLe le a bs

/-- Model of the Python built-in sorted with a boolean order. -/
def sortByLe (le : α → α → Bool) : List α → List α
  | [] => []
  | a :: as => insertByLe le a (sortByLe le as)

/-- Attempt body of list_topics from kafka_admin.py.  `metadataOutcome` is
the outcome of admin_client.list_topics(timeout=10): the raw topic name
list of the cluster metadata, or the exception that call raised.  The body
filters out internal topics (prefix __), sorts, and wraps any exception
into KafkaAdminError. -/
def listTopicsAttempt (metadataOutcome : Except PyExc (List String)) :
    Except PyExc (List String) :=
  match metadataOutcome with
  | .ok topics =>
    .ok (sortByLe (fun a b => decide (a ≤ b))
      (topics.filter (fun t => !t.startsWith "__")))
  | .error e => .error (.kafkaAdminError ("Failed to list topics: " ++ e.toStr))

/-- Retry-wrapped list_topics: stop_after_attempt(3),
retry_if_exception_type((KafkaException, KafkaAdminError)). -/
def list_topics_call (metadataOutcome : Nat → Except PyExc (List String)) :
    Except PyExc (List String) × Nat :=
  tenacityRun isRetryableKafka 3 (fun i => listTopicsAttempt (metadataOutcome i))

/-- DeleteOutcome records which return path of delete_topic executed:
`deleted` is the successful deletion path, `notExistNoop` the early return
at line 330 when the existence check does not find the name. -/
inductive DeleteOutcome where
  | deleted
  | notExistNoop
deriving DecidableEq, Repr

/-- Attempt body of delete_topic from kafka_admin.py.  `listOutcome` is the
outcome of the inner self.list_topics() call, `deleteOutcome` the outcome
of the delete_topics future.  A KafkaAdminError from the try body is
re-raised as is; any other exception is wrapped. -/
def deleteTopicAttempt (name : String)
    (listOutcome : Except PyExc (List String))
    (deleteOutcome : Except PyExc Unit) : Except PyExc DeleteOutcome :=
  let tryBody : Except PyExc DeleteOutcome :=
    match listOutcome with
    | .error e => .error e
    | .ok existingTopics =>
      if name ∈ existingTopics then
        match deleteOutcome with
        | .ok _ => .ok .deleted
        | .error e =>
          .error (.kafkaAdminError
            ("Failed to delete topic " ++ name ++ ": " ++ e.toStr))
      else .ok .notExistNoop
  match tryBody with
  | .ok res => .ok res
  | .error (.kafkaAdminError m) => .error (.kafkaAdminError m)
  | .error e =>
    .error (.kafkaAdminError ("Failed to delete topic " ++ name ++ ": " ++ e.toStr))

/-- Broker metadata entry as used by health_check. -/
structure Broker where
  id : Int
  host : String
  port : Int
deriving DecidableEq, Repr

/-- HealthResult models the two dict shapes returned by health_check: the
healthy shape with broker count, topic count, response time and broker
list, and the unhealthy shape with error message and response time.  The
response time of the unhealthy shape is an Option because the source emits
None when start_time is unbound; start_time is the first statement of the
try block, so in the model it is always present. -/
inductive HealthResult where
  | healthy (brokerCount topicCount : Nat) (responseTimeMs : Nat)
      (brokers : List Broker)
  | unhealthy (errorMsg : String) (responseTimeMs : Option Nat)
deriving DecidableEq, Repr

/-- health_check from kafka_admin.py.  `listOutcome` is the outcome of the
retry-wrapped self.list_topics() call, `metadataOutcome` the outcome of
admin_client.list_topics(timeout=5) giving the broker list, `elapsedMs`
the measured elapsed time.  The whole body is inside try/except Exception,
so the function always returns a result and never raises. -/
def health_check (listOutcome : Except PyExc (List String))
    (metadataOutcome : Except PyExc (List Broker)) (elapsedMs : Nat) :
    HealthResult :=
  match listOutcome with
  | .error e => .unhealthy e.toStr (some elapsedMs)
  | .ok topics =>
    match metadataOutcome with
    | .error e => .unhealthy e.toStr (some elapsedMs)
    | .ok brokers => .healthy brokers.length topics.length elapsedMs brokers

/-- Json models the values produced by Python json.loads: null, booleans,
numbers, strings, arrays, and objects with string keys in insertion
order.  Numeric values are modelled as Int; no claim inspects a numeric
value, only key presence. -/
inductive Json where
  | null
  | bool (b : Bool)
  | num (n : Int)
  | str (s : String)
  | arr (elems : List Json)
  | obj (fields : List (String × Json))

/-- Hashability of a Json value as a Python dict key: arrays (lists) and
objects (dicts) are unhashable, using one as a key raises TypeError. -/
def jsonIsHashable : Json → Bool
  | .arr _ => false
  | .obj _ => false
  | _ => true

/-- Python equality between hashable Json values, used for dict key
collision.  Python bools compare equal to the ints 0 and 1, which the
cross cases reproduce.  Arrays and objects never occur as dict keys (they
are unhashable), so the equality on them is irrelevant and returns
false. -/
def jsonAtomEq : Json → Json → Bool
  | .null, .null => true
  | .bool a, .bool b => a == b
  | .num a, .num b => a == b
  | .str a, .str b => a == b
  | .bool a, .num b => (if a then (1 : Int) else 0) == b
  | .num a, .bool b => a == (if b then (1 : Int) else 0)
  | _, _ => false

/-- Lookup of a string key in a Json object field list, the subscript and
dict.get of the source. -/
def getObjKey (kvs : List (String × Json)) (k : String) : Option Json :=
  (kvs.find? (fun kv => kv.1 = k)).map (·.2)

/-- Membership of a key in a Json-keyed dict. -/
def jdictHasKey (d : List (Json × α)) (k : Json) : Bool :=
  d.any (fun kv => jsonAtomEq kv.1 k)

/-- Write into a Json-keyed dict, Python semantics: an existing (equal) key
keeps its position and original key object and receives the new value, a
new key is appended. -/
def jdictInsert (d : List (Json × α)) (k : Json) (v : α) : List (Json × α) :=
  if jdictHasKey d k then
    d.map (fun kv => if jsonAtomEq kv.1 k then (kv.1, v) else kv)
  else d ++ [(k, v)]

/-- The dict comprehension of check_compatibility, lines 323 to 324:
fields = parsed.get("fields", []); build the dict mapping f["name"] to f.
Returns none when the Python expression would raise: the parsed value is
not a dict, the fields entry is not a list, an element is not a dict, an
element has no name key, or a name value is unhashable. -/
def fieldsMap (j : Json) : Option (List (Json × List (String × Json))) :=
  match j with
  | .obj kvs =>
    match (getObjKey kvs "fields").getD (.arr []) with
    | .arr xs =>
      xs.foldlM (fun acc x =>
        match x with
        | .obj fkvs =>
          match getObjKey fkvs "name" with
          | some nm =>
            if jsonIsHashable nm then some (jdictInsert acc nm fkvs) else none
          | none => none
        | _ => none) []
    | _ => none
  | _ => none

/-- The removed-required-field loop of check_compatibility, lines 327 to
335: the check passes when every existing field is either still present in
the candidate or carries a default in the existing definition. -/
def checkRemovedFields (efs cfs : List (Json × List (String × Json))) : Bool :=
  efs.all (fun ef => jdictHasKey cfs ef.1 || ef.2.any (fun kv => kv.1 = "default"))

/-- The innermost structural comparison of check_compatibility, lines 318
to 346: parse the existing definition, build both field dicts, run the
removed-field loop.  Returns none when any of those steps would raise an
exception; the caller then falls back to assume-compatible (true). -/
def structuralCheck (existingParse : Option Json) (cand : Json) : Option Bool :=
  match existingParse with
  | none => none
  | some ex =>
    match fieldsMap ex, fieldsMap cand with
    | some efs, some cfs => some (checkRemovedFields efs cfs)
    | _, _ => none

/-- GlueCall is the outcome of one boto3 Glue API call: a result, a
botocore ClientError with its error code and message, or any other
exception. -/
inductive GlueCall (α : Type) where
  | ok (a : α)
  | clientError (code msg : String)
  | otherError (msg : String)

/-- Attempt body of get_schema from schema_registry.py.  `resp` is the
outcome of glue_client.get_schema; the EntityNotFoundException code maps
to the not-found SchemaRegistryError, any other ClientError and any other
exception are wrapped into SchemaRegistryError. -/
def getSchemaAttempt (schemaName : String) (resp : GlueCall String) :
    Except PyExc String :=
  match resp with
  | .ok d => .ok d
  | .clientError code msg =>
    if code = "EntityNotFoundException" then
      .error (.schemaRegistryError ("Schema " ++ schemaName ++ " not found"))
    else .error (.schemaRegistryError ("Failed to get schema: " ++ msg))
  | .otherError msg =>
    .error (.schemaRegistryError
      ("Failed to get schema " ++ schemaName ++ ": " ++ msg))

/-- Retry-wrapped get_schema: stop_after_attempt(3),
retry_if_exception_type((ClientError, BotoCoreError,
SchemaRegistryError)). -/
def get_schema_call (schemaName : String) (resp : Nat → GlueCall String) :
    Except PyExc String × Nat :=
  tenacityRun isRetryableGlue 3 (fun i => getSchemaAttempt schemaName (resp i))

/-- Attempt body of check_compatibility from schema_registry.py.
`candidateParse` is the json.loads outcome for the candidate (none is a
JSONDecodeError), `validityResp` the outcome of
check_schema_version_validity, `getSchemaOutcome` the outcome of the
retry-wrapped self.get_schema call with the successful definition already
parsed (the source parses it again inside the innermost try), and
`metadataResp` the outcome of put_schema_version_metadata.  The handler
structure of the source is kept: only a SchemaRegistryError from the
get_schema call reaches the assume-compatible return at line 351; the
outer except ClientError and except Exception clauses wrap everything
else. -/
def checkCompatibilityAttempt (schemaName : String) (candidateParse : Option Json)
    (validityResp : GlueCall Bool) (getSchemaOutcome : Except PyExc (Option Json))
    (metadataResp : GlueCall Unit) : Except PyExc Bool :=
  let tryBody : Except PyExc Bool :=
    match candidateParse with
    | none => .error (.schemaRegistryError "Invalid JSON in candidate schema")
    | some cand =>
      match validityResp with
      | .clientError code msg => .error (.clientError code msg)
      | .otherError msg => .error (.otherError msg)
      | .ok valid =>
        if !valid then .ok false
        else
          match getSchemaOutcome with
          | .error (.schemaRegistryError _) => .ok true
          | .error e => .error e
          | .ok existingParse =>
            match metadataResp with
            | .clientError code msg => .error (.clientError code msg)
            | .otherError msg => .error (.otherError msg)
            | .ok _ =>
              match structuralCheck existingParse cand with
              | some b => .ok b
              | none => .ok true
  match tryBody with
  | .ok b => .ok b
  | .error (.clientError _ msg) =>
    .error (.schemaRegistryError ("Compatibility check failed: " ++ msg))
  | .error e =>
    .error (.schemaRegistryError
      ("Failed to check compatibility for " ++ schemaName ++ ": " ++ e.toStr))

/-- Retry-wrapped check_compatibility. -/
def check_compatibility_call (schemaName : String)
    (candidateParse : Option Json) (validityResp : Nat → GlueCall Bool)
    (getSchemaOutcome : Nat → Except PyExc (Option Json))
    (metadataResp : Nat → GlueCall Unit) : Except PyExc Bool × Nat :=
  tenacityRun isRetryableGlue 3 (fun i =>
    checkCompatibilityAttempt schemaName candidateParse (validityResp i)
      (getSchemaOutcome i) (metadataResp i))

/-- Attempt body of register_avro_schema from schema_registry.py.
`schemaParse` is the json.loads outcome for the definition string,
`getSchemaOutcome` the outcome of the retry-wrapped self.get_schema
existence probe, `registerResp` the outcome of glue register_schema,
`getArnResp` the outcome of the glue get_schema call that fetches the ARN
of an existing schema (used both on the byte-identical shortcut and in the
AlreadyExistsException handler). -/
def registerAvroSchemaAttempt (schemaName schemaStr : String)
    (schemaParse : Option Json) (compatibility : String)
    (getSchemaOutcome : Except PyExc String)
    (registerResp : GlueCall String) (getArnResp : GlueCall String) :
    Except PyExc String :=
  let arnFetch : Except PyExc String :=
    match getArnResp with
    | .ok arn => .ok arn
    | .clientError code msg => .error (.clientError code msg)
    | .otherError msg => .error (.otherError msg)
  let proceedRegister : Except PyExc String :=
    match registerResp with
    | .ok arn => .ok arn
    | .clientError code msg => .error (.clientError code msg)
    | .otherError msg => .error (.otherError msg)
  let tryBody : Except PyExc String :=
    match schemaParse with
    | none => .error (.schemaRegistryError "Invalid JSON in schema")
    | some _ =>
      if compatibility ∈ ["BACKWARD", "FORWARD", "FULL", "NONE"] then
        match getSchemaOutcome with
        | .ok existingDef =>
          if existingDef = schemaStr then arnFetch else proceedRegister
        | .error (.schemaRegistryError _) => proceedRegister
        | .error e => .error e
      else
        .error (.schemaRegistryError
          ("Invalid compatibility " ++ compatibility ++
           ". Valid options: BACKWARD, FORWARD, FULL, NONE"))
  match tryBody with
  | .ok arn => .ok arn
  | .error (.clientError code msg) =>
    if code = "AlreadyExistsException" then arnFetch
    else if code = "InvalidInputException" then
      .error (.schemaRegistryError ("Invalid schema input: " ++ msg))
    else .error (.schemaRegistryError ("Failed to register schema: " ++ msg))
  | .error e =>
    .error (.schemaRegistryError
      ("Failed to register schema " ++ schemaName ++ ": " ++ e.toStr))

/-- Retry-wrapped register_avro_schema. -/
def register_avro_schema_call (schemaName schemaStr : String)
    (schemaParse : Option Json) (compatibility : String)
    (getSchemaOutcome : Nat → Except PyExc String)
    (registerResp : Nat → GlueCall String)
    (getArnResp : Nat → GlueCall String) : Except PyExc String × Nat :=
  tenacityRun isRetryableGlue 3 (fun i =>
    registerAvroSchemaAttempt schemaName schemaStr schemaParse compatibility
      (getSchemaOutcome i) (registerResp i) (getArnResp i))

/-- Raw schema entry of a Glue list_schemas page, with the optional fields
the source reads through dict.get. -/
structure RawGlueSchema where
  schemaName : String
  schemaArn : String
  schemaStatus : String
  dataFormat : String
  compatibility : Option String
  createdTime : Option String
  updatedTime : Option String
  latestSchemaVersion : Option Nat
deriving DecidableEq, Repr

/-- Schema summary dict built by list_schemas. -/
structure SchemaInfo where
  name : String
  arn : String
  status : String
  dataFormat : String
  compatibility : String
  createdTime : Option String
  updatedTime : Option String
  versionNumber : Nat
deriving DecidableEq, Repr

/-- Field mapping of list_schemas, lines 236 to 245, with the dict.get
defaults UNKNOWN and 0. -/
def toSchemaInfo (s : RawGlueSchema) : SchemaInfo :=
  ⟨s.schemaName, s.schemaArn, s.schemaStatus, s.dataFormat,
   s.compatibility.getD "UNKNOWN", s.createdTime, s.updatedTime,
   s.latestSchemaVersion.getD 0⟩

/-- Attempt body of list_schemas from schema_registry.py.  `pagesResp` is
the combined outcome of the paginated glue list_schemas call.  An
EntityNotFoundException ClientError (registry missing) is absorbed into an
empty result; every other ClientError and every other exception raises a
SchemaRegistryError. -/
def listSchemasAttempt (pagesResp : GlueCall (List RawGlueSchema)) :
    Except PyExc (List SchemaInfo) :=
  match pagesResp with
  | .ok ss =>
    .ok (sortByLe (fun a b => decide (a.name ≤ b.name)) (ss.map toSchemaInfo))
  | .clientError code msg =>
    if code = "EntityNotFoundException" then .ok []
    else .error (.schemaRegistryError ("Failed to list schemas: " ++ msg))
  | .otherError msg =>
    .error (.schemaRegistryError ("Failed to list schemas: " ++ msg))

/-- Candidate Avro record used in concrete scenarios: one field a. -/
def candidateOrdersJson : Json :=
  .obj [("type", .str "record"), ("name", .str "Orders"),
        ("fields", .arr [.obj [("name", .str "a"), ("type", .str "string")]])]

/-- Existing Avro record whose extra field b carries no default. -/
def existingRequiredFieldJson : Json :=
  .obj [("type", .str "record"), ("name", .str "Orders"),
        ("fields", .arr
          [.obj [("name", .str "a"), ("type", .str "string")],
           .obj [("name", .str "b"), ("type", .str "string")]])]

/-- Existing Avro record whose extra field b carries a default. -/
def existingDefaultedFieldJson : Json :=
  .obj [("type", .str "record"), ("name", .str "Orders"),
        ("fields", .arr
          [.obj [("name", .str "a"), ("type", .str "string")],
           .obj [("name", .str "b"), ("type", .str "string"),
                 ("default", .str "x")]])]


/-
Helper lemmas about dict writes and merging, shared by the claim theorems.
-/

/-- Unfolding of lookupConfig on a cons cell. -/
theorem lookupConfig_cons (a : String × ConfigValue) (t : Config) (k : String) :
    lookupConfig (a :: t) k = if a.1 = k then some a.2 else lookupConfig t k := by
  by_cases h : a.1 = k
  · rw [lookupConfig, List.find?_cons_of_pos _ (by simpa using h), if_pos h]
    rfl
  · rw [lookupConfig, List.find?_cons_of_neg _ (by simpa using h), if_neg h]
    rfl

/-- The replace branch of dictSet does not change the key list. -/
theorem configKeys_map_replace (d : Config) (k : String) (v : ConfigValue) :
    configKeys (d.map (fun kv => if kv.1 = k then (k, v) else kv)) =
      configKeys d := by
  induction d with
  | nil => rfl
  | cons a t ih =>
    by_cases h : a.1 = k
    · rw [List.map_cons, if_pos h]
      show k :: configKeys (t.map _) = a.1 :: configKeys t
      rw [ih, h]
    · rw [List.map_cons, if_neg h]
      show a.1 :: configKeys (t.map _) = a.1 :: configKeys t
      rw [ih]

/-- Looking up the written key in the replace branch of dictSet finds the
new value exactly when the key occurs in the dict. -/
theorem lookupConfig_map_replace (d : Config) (k : String) (v : ConfigValue) :
    lookupConfig (d.map (fun kv => if kv.1 = k then (k, v) else kv)) k =
      if d.any (fun kv => kv.1 = k) then some v else none := by
  induction d with
  | nil => simp [lookupConfig]
  | cons a t ih =>
    by_cases h : a.1 = k
    · simp [lookupConfig_cons, h, ih]
    · simp only [List.map_cons, if_neg h, lookupConfig_cons, List.any_cons]
      rw [ih]
      simp only [decide_eq_false h, Bool.false_or]

/-- Lookup of a different key is unchanged by the replace branch. -/
theorem lookupConfig_map_replace_ne (d : Config) (k k' : String)
    (v : ConfigValue) (h : k' ≠ k) :
    lookupConfig (d.map (fun kv => if kv.1 = k then (k, v) else kv)) k' =
      lookupConfig d k' := by
  induction d with
  | nil => rfl
  | cons a t ih =>
    by_cases ha : a.1 = k
    · rw [List.map_cons, if_pos ha, lookupConfig_cons, lookupConfig_cons]
      rw [if_neg (fun he => h he.symm), if_neg (by rw [ha]; exact fun he => h he.symm)]
      exact ih
    · rw [List.map_cons, if_neg ha, lookupConfig_cons, lookupConfig_cons]
      by_cases hk : a.1 = k'
      · rw [if_pos hk, if_pos hk]
      · rw [if_neg hk, if_neg hk]
        exact ih

/-- Lookup in an append ending in the searched key. -/
theorem lookupConfig_append_single (d : Config) (k : String) (v : ConfigValue) :
    lookupConfig (d ++ [(k, v)]) k =
      some ((lookupConfig d k).getD v) := by
  induction d with
  | nil => simp [lookupConfig_cons, lookupConfig]
  | cons a t ih =>
    by_cases h : a.1 = k
    · simp [lookupConfig_cons, h]
    · simpa [lookupConfig_cons, h] using ih

/-- Lookup of a different key is unchanged by appending one pair. -/
theorem lookupConfig_append_single_ne (d : Config) (k k' : String)
    (v : ConfigValue) (h : k' ≠ k) :
    lookupConfig (d ++ [(k, v)]) k' = lookupConfig d k' := by
  induction d with
  | nil => simp [lookupConfig_cons, lookupConfig, Ne.symm h]
  | cons a t ih =>
    by_cases hk : a.1 = k'
    · simp [lookupConfig_cons, hk]
    · simpa [lookupConfig_cons, hk] using ih

/-- A key that fails the any test is absent from the dict. -/
theorem lookupConfig_eq_none_of_not_any (d : Config) (k : String)
    (h : d.any (fun kv => kv.1 = k) = false) : lookupConfig d k = none := by
  induction d with
  | nil => rfl
  | cons a t ih =>
    simp only [List.any_cons, Bool.or_eq_false_iff, decide_eq_false_iff_not] at h
    rw [lookupConfig_cons, if_neg h.1]
    exact ih h.2

/-- Lookup of the written key in dictSet always finds the new value. -/
theorem lookupConfig_dictSet_self (d : Config) (k : String) (v : ConfigValue) :
    lookupConfig (dictSet d k v) k = some v := by
  rw [dictSet]
  by_cases h : d.any (fun kv => kv.1 = k)
  · rw [if_pos h, lookupConfig_map_replace, if_pos h]
  · rw [if_neg h, lookupConfig_append_single,
      lookupConfig_eq_none_of_not_any d k (Bool.eq_false_iff.mpr h)]
    rfl

/-- Lookup of any other key is unchanged by dictSet. -/
theorem lookupConfig_dictSet_ne (d : Config) (k k' : String) (v : ConfigValue)
    (h : k' ≠ k) :
    lookupConfig (dictSet d k v) k' = lookupConfig d k' := by
  rw [dictSet]
  by_cases hd : d.any (fun kv => kv.1 = k)
  · rw [if_pos hd, lookupConfig_map_replace_ne _ _ _ _ h]
  · rw [if_neg hd, lookupConfig_append_single_ne _ _ _ _ h]

/-- Key membership after dictSet: the old keys plus the written key. -/
theorem configKeys_dictSet_mem (d : Config) (k : String) (v : ConfigValue)
    (k' : String) :
    k' ∈ configKeys (dictSet d k v) ↔ k' ∈ configKeys d ∨ k' = k := by
  rw [dictSet]
  by_cases hd : d.any (fun kv => kv.1 = k)
  · rw [if_pos hd, configKeys_map_replace]
    constructor
    · exact Or.inl
    · rintro (h | rfl)
      · exact h
      · simp only [List.any_eq_true, decide_eq_true_eq] at hd
        obtain ⟨kv₀, hmem, hk₀⟩ := hd
        exact hk₀ ▸ List.mem_map.mpr ⟨kv₀, hmem, rfl⟩
  · rw [if_neg hd]
    simp [configKeys]

/-- Unfolding of merge_configs on a snoc of the override list. -/
theorem merge_configs_snoc (p o : Config) (kv : String × ConfigValue) :
    merge_configs p (o ++ [kv]) = dictSet (merge_configs p o) kv.1 kv.2 := by
  simp [merge_configs, List.foldl_append]

/-- Override keys win in the merge, for override dicts (which, as Python
dicts, have no duplicate keys). -/
theorem merge_configs_override_wins (o : Config)
    (hnd : (configKeys o).Nodup) (p : Config) (k : String) (v : ConfigValue)
    (hmem : (k, v) ∈ o) : lookupConfig (merge_configs p o) k = some v := by
  induction o using List.reverseRecOn with
  | nil => cases hmem
  | append_singleton o' kv₀ ih =>
    have hnd' : (configKeys o').Nodup ∧ kv₀.1 ∉ configKeys o' := by
      have : (configKeys o' ++ [kv₀.1]).Nodup := by
        simpa [configKeys] using hnd
      exact ⟨this.of_append_left, by
        intro hin
        exact (List.disjoint_of_nodup_append this) hin (by simp)⟩
    rw [merge_configs_snoc]
    rcases List.mem_append.mp hmem with h | h
    · have hk : k ∈ configKeys o' := List.mem_map.mpr ⟨(k, v), h, rfl⟩
      have hne : k ≠ kv₀.1 := fun he => hnd'.2 (he ▸ hk)
      rw [lookupConfig_dictSet_ne _ _ _ _ hne]
      exact ih hnd'.1 h
    · have : (k, v) = kv₀ := by simpa using h
      rw [← this]
      exact lookupConfig_dictSet_self _ _ _

/-- Profile keys not overridden keep the profile value. -/
theorem merge_configs_keeps_profile (o : Config) (p : Config) (k : String)
    (hnot : k ∉ configKeys o) :
    lookupConfig (merge_configs p o) k = lookupConfig p k := by
  induction o using List.reverseRecOn with
  | nil => rfl
  | append_singleton o' kv₀ ih =>
    simp only [configKeys, List.map_append, List.mem_append] at hnot
    push_neg at hnot
    rw [merge_configs_snoc]
    rw [lookupConfig_dictSet_ne _ _ _ _ (by simpa using hnot.2)]
    exact ih (by simpa [configKeys] using hnot.1)

/-- No key of either input is lost by merging. -/
theorem merge_configs_keys_superset (o : Config) (p : Config) (k : String)
    (h : k ∈ configKeys p ∨ k ∈ configKeys o) :
    k ∈ configKeys (merge_configs p o) := by
  induction o using List.reverseRecOn with
  | nil => simpa using h.elim id (by simp [configKeys])
  | append_singleton o' kv₀ ih =>
    rw [merge_configs_snoc, configKeys_dictSet_mem]
    rcases h with h | h
    · exact Or.inl (ih (Or.inl h))
    · simp only [configKeys, List.map_append, List.mem_append] at h
      rcases h with h | h
      · exact Or.inl (ih (Or.inr h))
      · simp only [List.map_cons, List.map_nil, List.mem_singleton] at h
        exact Or.inr h

/-
Claim theorems.
-/

/-- C7: merge_configs is a right-biased shallow merge: every override key
appears in the result with the override value, profile keys not overridden
keep the profile value, no key of either input is absent from the result,
and merging with the empty override dict returns the profile unchanged.
The Nodup hypothesis states that the override mapping is a Python dict
(no duplicate keys). -/
theorem c7_merge_configs_right_biased (p o : Config)
    (hnd : (configKeys o).Nodup) :
    (∀ k v, (k, v) ∈ o → lookupConfig (merge_configs p o) k = some v) ∧
    (∀ k, k ∉ configKeys o →
      lookupConfig (merge_configs p o) k = lookupConfig p k) ∧
    (∀ k, k ∈ configKeys p ∨ k ∈ configKeys o →
      k ∈ configKeys (merge_configs p o)) ∧
    merge_configs p [] = p :=
  ⟨fun k v hm => merge_configs_override_wins o hnd p k v hm,
   fun k hk => merge_configs_keeps_profile o p k hk,
   fun k h => merge_configs_keys_superset o p k h,
   rfl⟩

/-- C7 witness: the merge theorem applied to the general_throughput
profile and a concrete two-key override dict. -/
theorem c7_merge_configs_right_biased_witness :
    (configKeys [("compression.type", ConfigValue.str "lz4"),
                 ("retention.ms", ConfigValue.int 42)]).Nodup ∧
    lookupConfig (merge_configs generalThroughputConfig
        [("compression.type", .str "lz4"), ("retention.ms", .int 42)])
      "compression.type" = some (.str "lz4") ∧
    lookupConfig (merge_configs generalThroughputConfig
        [("compression.type", .str "lz4"), ("retention.ms", .int 42)])
      "min.insync.replicas" = some (.int 2) ∧
    "segment.ms" ∈ configKeys (merge_configs generalThroughputConfig
        [("compression.type", .str "lz4"), ("retention.ms", .int 42)]) ∧
    merge_configs generalThroughputConfig [] = generalThroughputConfig := by
  have hc := c7_merge_configs_right_biased generalThroughputConfig
    [("compression.type", .str "lz4"), ("retention.ms", .int 42)] (by decide)
  refine ⟨by decide, hc.1 _ _ (by decide), ?_, ?_, hc.2.2.2⟩
  · rw [hc.2.1 "min.insync.replicas" (by decide)]
    rfl
  · exact hc.2.2.1 _ (Or.inl (by decide))

/-- C5: validate_config fails with the min-isr InvalidConfiguration error
whenever the configured min.insync.replicas is at least the replication
factor, and never fails with that error when it is strictly below (the
call can then only succeed or fail on the separate compression rule). -/
theorem c5_validate_config_min_isr_rule (config : Config) (m r : Int)
    (hlook : lookupConfig config "min.insync.replicas" = some (.int m)) :
    (r ≤ m →
      validate_config config r = .error (.minIsrNotLessThanRF (.int m) r)) ∧
    (m < r → ∀ v rfv,
      validate_config config r ≠ .error (.minIsrNotLessThanRF v rfv)) := by
  constructor
  · intro h
    simp only [validate_config, hlook, Option.getD_some, pyGeInt]
    rw [if_pos (decide_eq_true h)]
  · intro h v rfv
    simp only [validate_config, hlook, Option.getD_some, pyGeInt]
    rw [if_neg (by simp [decide_eq_false (not_le.mpr h)])]
    split <;> simp

/-- C5 witness: the rule applied at min.insync.replicas 2 with replication
factors 2 (violating) and 3 (satisfying). -/
theorem c5_validate_config_min_isr_rule_witness :
    lookupConfig [("min.insync.replicas", ConfigValue.int 2)]
      "min.insync.replicas" = some (.int 2) ∧
    validate_config [("min.insync.replicas", ConfigValue.int 2)] 2 =
      .error (.minIsrNotLessThanRF (.int 2) 2) ∧
    (∀ v rfv, validate_config [("min.insync.replicas", ConfigValue.int 2)] 3 ≠
      .error (.minIsrNotLessThanRF v rfv)) :=
  ⟨by decide,
   (c5_validate_config_min_isr_rule _ 2 2 (by decide)).1 (by decide),
   (c5_validate_config_min_isr_rule _ 2 3 (by decide)).2 (by decide)⟩

/-- C10: list_schemas absorbs the registry-missing not-found condition
(ClientError with code EntityNotFoundException) into an empty successful
result, while every other ClientError and every other exception raises the
SchemaRegistryError of the component. -/
theorem c10_list_schemas_absorbs_registry_not_found :
    (∀ msg, listSchemasAttempt (.clientError "EntityNotFoundException" msg) =
      .ok []) ∧
    (∀ code msg, code ≠ "EntityNotFoundException" →
      listSchemasAttempt (.clientError code msg) =
        .error (.schemaRegistryError ("Failed to list schemas: " ++ msg))) ∧
    (∀ msg, listSchemasAttempt (GlueCall.otherError msg) =
      .error (.schemaRegistryError ("Failed to list schemas: " ++ msg))) := by
  refine ⟨fun msg => ?_, fun code msg h => ?_, fun msg => rfl⟩
  · simp [listSchemasAttempt]
  · simp only [listSchemasAttempt]
    rw [if_neg h]

/-- C10 witness: the absorbed not-found case and a non-absorbed error
code. -/
theorem c10_list_schemas_absorbs_registry_not_found_witness :
    ("AccessDeniedException" : String) ≠ "EntityNotFoundException" ∧
    listSchemasAttempt (.clientError "EntityNotFoundException" "missing") =
      .ok [] ∧
    listSchemasAttempt (.clientError "AccessDeniedException" "denied") =
      .error (.schemaRegistryError "Failed to list schemas: denied") :=
  ⟨by decide,
   c10_list_schemas_absorbs_registry_not_found.1 "missing",
   c10_list_schemas_absorbs_registry_not_found.2.1 _ "denied" (by decide)⟩

/-- C8: health_check is total over all outcomes of its two internal remote
calls: it never propagates an error but returns either the healthy shape,
or the unhealthy shape carrying the message of the first failing call and
the measured response time. -/
theorem c8_health_check_never_raises (listOutcome : Except PyExc (List String))
    (metadataOutcome : Except PyExc (List Broker)) (elapsedMs : Nat) :
    (∃ e, listOutcome = .error e ∧
      health_check listOutcome metadataOutcome elapsedMs =
        .unhealthy e.toStr (some elapsedMs)) ∨
    (∃ topics e, listOutcome = .ok topics ∧ metadataOutcome = .error e ∧
      health_check listOutcome metadataOutcome elapsedMs =
        .unhealthy e.toStr (some elapsedMs)) ∨
    (∃ topics brokers, listOutcome = .ok topics ∧ metadataOutcome = .ok brokers ∧
      health_check listOutcome metadataOutcome elapsedMs =
        .healthy brokers.length topics.length elapsedMs brokers) := by
  cases listOutcome with
  | error e => exact Or.inl ⟨e, rfl, rfl⟩
  | ok topics =>
    cases metadataOutcome with
    | error e => exact Or.inr (Or.inl ⟨topics, e, rfl, rfl, rfl⟩)
    | ok brokers => exact Or.inr (Or.inr ⟨topics, brokers, rfl, rfl, rfl⟩)

/-- C1: three consecutive transient failures on list_topics stop after
exactly 3 attempts (second component), but the error surfaced to the
caller is a tenacity RetryError wrapping the final KafkaAdminError of the
last attempt, not that error itself: tenacity is used with its default
reraise=False, so the claim that the last observed error is raised
unchanged and unwrapped fails on the code.  The third conjunct notes the
surfaced value is also not the original transient KafkaException. -/
theorem c1_list_topics_exhaustion_wraps_last_error :
    list_topics_call (fun _ => .error (.kafkaException "Connection refused")) =
      (.error (.retryError
        (.kafkaAdminError "Failed to list topics: Connection refused")), 3) ∧
    PyExc.retryError (.kafkaAdminError "Failed to list topics: Connection refused") ≠
      PyExc.kafkaAdminError "Failed to list topics: Connection refused" ∧
    PyExc.retryError (.kafkaAdminError "Failed to list topics: Connection refused") ≠
      PyExc.kafkaException "Connection refused" :=
  ⟨rfl, by simp, by simp⟩

/-- C2: the invalid-partitions check of create_topic raises KafkaAdminError
and the malformed-JSON check of register_avro_schema raises
SchemaRegistryError; both classes are in the retry list of their own
decorator, so these validation failures consume all 3 attempts and then
surface wrapped in a RetryError, instead of propagating after a single
attempt as the claim states.  Only the configuration validation of
validate_config, which raises ValueError, propagates unretried and
unwrapped on the first attempt (third conjunct). -/
theorem c2_validation_errors_consume_retries :
    create_topic_call 6 3 "orders" (some (-1)) none none "general_throughput"
        (fun _ => .ok []) (fun _ => .ok ()) =
      (.error (.retryError (.kafkaAdminError "Partitions must be >= 1, got -1")), 3) ∧
    register_avro_schema_call "orders-v1" "not json" none "BACKWARD"
        (fun _ => .error (.retryError (.schemaRegistryError "Schema orders-v1 not found")))
        (fun _ => .ok "arn") (fun _ => .ok "arn") =
      (.error (.retryError (.schemaRegistryError
        "Failed to register schema orders-v1: Invalid JSON in schema")), 3) ∧
    create_topic_call 6 3 "orders" (some 6) (some 3)
        (some [("compression.type", .str "brotli")]) "general_throughput"
        (fun _ => .ok []) (fun _ => .ok ()) =
      (.error (.valueError
        "Invalid compression.type. Valid options: none, gzip, snappy, lz4, zstd"), 1) :=
  ⟨rfl, rfl, rfl⟩

/-- C4: when no schema of the requested name exists, check_compatibility
does not return true: the inner retry-wrapped get_schema retries its own
not-found SchemaRegistryError three times and surfaces a RetryError (first
conjunct), which the except SchemaRegistryError handler of
check_compatibility does not match, so the assume-compatible return is
bypassed and the call raises (second and third conjuncts).  The structural
rule itself behaves as claimed once a schema exists: a field missing from
the candidate without a default yields false, with a default yields true
(last two conjuncts). -/
theorem c4_check_compatibility_missing_schema_raises :
    get_schema_call "orders"
        (fun _ => .clientError "EntityNotFoundException" "Entity not found") =
      (.error (.retryError (.schemaRegistryError "Schema orders not found")), 3) ∧
    check_compatibility_call "orders" (some candidateOrdersJson)
        (fun _ => .ok true)
        (fun _ => .error (.retryError (.schemaRegistryError "Schema orders not found")))
        (fun _ => .ok ()) =
      (.error (.retryError (.schemaRegistryError
        "Failed to check compatibility for orders: RetryError")), 3) ∧
    (∀ b, (Except.error (PyExc.retryError (.schemaRegistryError
        "Failed to check compatibility for orders: RetryError")) :
          Except PyExc Bool) ≠ .ok b) ∧
    checkCompatibilityAttempt "orders" (some candidateOrdersJson) (.ok true)
        (.ok (some existingRequiredFieldJson)) (.ok ()) = .ok false ∧
    checkCompatibilityAttempt "orders" (some candidateOrdersJson) (.ok true)
        (.ok (some existingDefaultedFieldJson)) (.ok ()) = .ok true :=
  ⟨rfl, rfl, fun b => by simp, rfl, rfl⟩

/-- C9: a supplied partitions or replication-factor value of 0 is falsy in
the Python defaulting expression, so it is replaced by the process-wide
default before the lower-bound check runs: the attempt behaves exactly as
if the argument had been omitted (first conjunct, for every environment),
because the defaulting substitution happens first (second conjunct); with
the process defaults 6 and 3 the call proceeds normally instead of raising
the invalid-argument error (third conjunct). -/
theorem c9_zero_arguments_use_defaults
    (defP defRF : Int) (name : String) (config : Option Config)
    (profile : String) (listOutcome : Except PyExc (List String))
    (createOutcome : Except PyExc Unit) :
    createTopicAttempt defP defRF name (some 0) (some 0) config profile
        listOutcome createOutcome =
      createTopicAttempt defP defRF name none none config profile
        listOutcome createOutcome ∧
    resolveArg (some 0) defP = defP ∧
    createTopicAttempt 6 3 "pinot-events" (some 0) (some 0) none
        "general_throughput" (.ok []) (.ok ()) = .ok .created :=
  ⟨rfl, rfl, rfl⟩

/-- C6 counterexample: a call with the explicitly supplied partitions value
0, which is less than 1, does not fail with the invalid-argument error as
the claim states; the 0 is replaced by the default and the attempt
succeeds. -/
theorem c6_counterexample_zero_partitions_not_rejected :
    createTopicAttempt 6 3 "orders" (some 0) (some 3) none
        "general_throughput" (.ok []) (.ok ()) = .ok .created ∧
    (0 : Int) < 1 :=
  ⟨rfl, by decide⟩

/-- C6 amended: a call with an explicitly supplied negative partitions
value, or a valid partitions value and a negative replication factor,
fails on the corresponding invalid-argument KafkaAdminError; the result is
the same for every outcome of the remote calls, which shows the failure
happens before any network interaction.  A supplied 0 is replaced by the
process-wide default before the check (see the C9 theorem). -/
theorem c6_negative_arguments_fail_before_network
    (defP defRF : Int) (name : String) (config : Option Config)
    (profile : String) :
    (∀ p : Int, p < 0 →
      ∀ (replicationFactor : Option Int)
        (listOutcome : Except PyExc (List String))
        (createOutcome : Except PyExc Unit),
        createTopicAttempt defP defRF name (some p) replicationFactor config
          profile listOutcome createOutcome =
          .error (.kafkaAdminError s!"Partitions must be >= 1, got {p}")) ∧
    (∀ r : Int, r < 0 →
      ∀ partitions : Option Int, 1 ≤ resolveArg partitions defP →
        ∀ (listOutcome : Except PyExc (List String))
          (createOutcome : Except PyExc Unit),
        createTopicAttempt defP defRF name partitions (some r) config
          profile listOutcome createOutcome =
          .error (.kafkaAdminError s!"Replication factor must be >= 1, got {r}")) := by
  constructor
  · intro p hp replicationFactor listOutcome createOutcome
    have h0 : resolveArg (some p) defP = p := by
      rw [resolveArg, if_neg (by omega)]
    simp only [createTopicAttempt, h0]
    rw [if_pos (by omega)]
  · intro r hr partitions hple listOutcome createOutcome
    have h0 : resolveArg (some r) defRF = r := by
      rw [resolveArg, if_neg (by omega)]
    simp only [createTopicAttempt, h0]
    rw [if_neg (by omega), if_pos (by omega)]

/-- C6 amended witness: the amended theorem applied at partitions -1 and at
replication factor -2. -/
theorem c6_negative_arguments_fail_before_network_witness :
    ((-1 : Int) < 0) ∧ ((-2 : Int) < 0) ∧ (1 ≤ resolveArg (some 6) 6) ∧
    createTopicAttempt 6 3 "orders" (some (-1)) none none
        "general_throughput" (.ok []) (.ok ()) =
      .error (.kafkaAdminError "Partitions must be >= 1, got -1") ∧
    createTopicAttempt 6 3 "orders" (some 6) (some (-2)) none
        "general_throughput" (.ok []) (.ok ()) =
      .error (.kafkaAdminError "Replication factor must be >= 1, got -2") :=
  ⟨by decide, by decide, by decide,
   (c6_negative_arguments_fail_before_network 6 3 "orders" none
     "general_throughput").1 (-1) (by decide) none (.ok []) (.ok ()),
   (c6_negative_arguments_fail_before_network 6 3 "orders" none
     "general_throughput").2 (-2) (by decide) (some 6) (by decide)
     (.ok []) (.ok ())⟩

/-- C3: for any request that passes local validation, create_topic on a
name that is already in the listed topics returns through the no-op
early-return path without submitting a creation (for every outcome the
create future would have had), and delete_topic on a name absent from the
listed topics returns through its no-op path without deleting. -/
theorem c3_idempotency_shortcircuits
    (defP defRF : Int) (name : String)
    (partitions replicationFactor : Option Int) (config : Option Config)
    (profile : String) (profileConfig : Config)
    (existingTopics : List String) (createOutcome : Except PyExc Unit)
    (absentTopics : List String) (deleteOutcome : Except PyExc Unit)
    (hp : 1 ≤ resolveArg partitions defP)
    (hr : 1 ≤ resolveArg replicationFactor defRF)
    (hprof : get_profile profile = .ok profileConfig)
    (hvalid : validate_config (merge_configs profileConfig (config.getD []))
        (resolveArg replicationFactor defRF) = .ok ())
    (hmem : name ∈ existingTopics) (hnot : name ∉ absentTopics) :
    createTopicAttempt defP defRF name partitions replicationFactor config
        profile (.ok existingTopics) createOutcome = .ok .existedNoop ∧
    deleteTopicAttempt name (.ok absentTopics) deleteOutcome =
      .ok .notExistNoop := by
  constructor
  · simp only [createTopicAttempt, hprof, hvalid]
    rw [if_neg (by omega), if_neg (by omega)]
    simp [hmem]
  · simp [deleteTopicAttempt, hnot]

/-- C3 witness: the idempotency theorem applied to the topic orders, which
already exists for the create call and is absent for the delete call. -/
theorem c3_idempotency_shortcircuits_witness :
    (1 ≤ resolveArg (some 6) 6) ∧ ("orders" ∈ ["orders", "payments"]) ∧
    ("orders" ∉ ["payments"]) ∧
    get_profile "general_throughput" = .ok generalThroughputConfig ∧
    validate_config (merge_configs generalThroughputConfig [])
      (resolveArg (some 3) 3) = .ok () ∧
    createTopicAttempt 6 3 "orders" (some 6) (some 3) none
      "general_throughput" (.ok ["orders", "payments"]) (.ok ()) =
      .ok .existedNoop ∧
    deleteTopicAttempt "orders" (.ok ["payments"]) (.ok ()) =
      .ok .notExistNoop := by
  have h := c3_idempotency_shortcircuits 6 3 "orders" (some 6) (some 3) none
    "general_throughput" generalThroughputConfig ["orders", "payments"]
    (.ok ()) ["payments"] (.ok ()) (by decide) (by decide) rfl rfl
    (by decide) (by decide)
  exact ⟨by decide, by decide, by decide, rfl, rfl, h.1, h.2⟩
